import Mathlib

/-!
Shallow embedding of the EV charging analysis pipeline
(charging_patterns_analysis.py, ev_analysis.py, temperature_analysis.py).

Numeric cells of the CSV are modelled by the type EF: a finite rational,
positive or negative infinity, or NaN, with IEEE-754 style arithmetic as
implemented by numpy/pandas (division by zero yields a signed infinity or
NaN, any comparison involving NaN is false, NaN propagates through
arithmetic).  Dataframes are lists of per-module row structures; derived
columns are structure fields populated by the loader.  External statistical
library calls (scipy t-test, f_oneway) whose numeric results no claim
depends on are taken as parameters of the embedded functions.
-/

/-- Extended value: NaN, negative infinity, a finite rational, or positive
infinity.  Models a float cell of a pandas column without rounding. -/
inductive EF where
  | nan : EF
  | ninf : EF
  | fin : ℚ → EF
  | pinf : EF
deriving DecidableEq, Repr

namespace EF

/-- IEEE-style negation. -/
def neg : EF → EF
  | nan => nan
  | ninf => pinf
  | fin q => fin (-q)
  | pinf => ninf

/-- IEEE-style addition: NaN propagates, opposite infinities give NaN. -/
def add : EF → EF → EF
  | nan, _ => nan
  | _, nan => nan
  | pinf, ninf => nan
  | ninf, pinf => nan
  | pinf, _ => pinf
  | _, pinf => pinf
  | ninf, _ => ninf
  | _, ninf => ninf
  | fin a, fin b => fin (a + b)

/-- IEEE-style subtraction. -/
def sub (a b : EF) : EF := add a (neg b)

/-- IEEE-style multiplication: NaN propagates, infinity times zero is NaN,
otherwise signs multiply. -/
def mul : EF → EF → EF
  | nan, _ => nan
  | _, nan => nan
  | fin a, fin b => fin (a * b)
  | pinf, pinf => pinf
  | pinf, ninf => ninf
  | ninf, pinf => ninf
  | ninf, ninf => pinf
  | pinf, fin b => if b = 0 then nan else if 0 < b then pinf else ninf
  | fin a, pinf => if a = 0 then nan else if 0 < a then pinf else ninf
  | ninf, fin b => if b = 0 then nan else if 0 < b then ninf else pinf
  | fin a, ninf => if a = 0 then nan else if 0 < a then ninf else pinf

/-- IEEE-style division: finite over zero gives a signed infinity (NaN for
zero over zero), infinity over infinity gives NaN, finite over infinity
gives zero. -/
def div : EF → EF → EF
  | nan, _ => nan
  | _, nan => nan
  | fin a, fin b =>
      if b = 0 then (if a = 0 then nan else if 0 < a then pinf else ninf)
      else fin (a / b)
  | fin _, pinf => fin 0
  | fin _, ninf => fin 0
  | pinf, fin b => if 0 ≤ b then pinf else ninf
  | ninf, fin b => if 0 ≤ b then ninf else pinf
  | pinf, pinf => nan
  | pinf, ninf => nan
  | ninf, pinf => nan
  | ninf, ninf => nan

/-- Comparison used by pandas boolean masks: any comparison with NaN is
false. -/
def le : EF → EF → Bool
  | nan, _ => false
  | _, nan => false
  | ninf, _ => true
  | _, ninf => false
  | fin a, fin b => decide (a ≤ b)
  | _, pinf => true
  | pinf, _ => false

/-- Strict comparison; any comparison with NaN is false. -/
def lt : EF → EF → Bool
  | nan, _ => false
  | _, nan => false
  | ninf, ninf => false
  | ninf, _ => true
  | _, ninf => false
  | fin a, fin b => decide (a < b)
  | pinf, _ => false
  | fin _, pinf => true

/-- True exactly on finite values. -/
def isFinite : EF → Bool
  | fin _ => true
  | _ => false

/-- True exactly on NaN. -/
def isNan : EF → Bool
  | nan => true
  | _ => false

/-- Total order used for sorting a NaN-free column (numpy sort order on
non-NaN floats). -/
def sortLe : EF → EF → Bool
  | nan, nan => true
  | nan, _ => false
  | _, nan => true
  | ninf, _ => true
  | _, ninf => false
  | fin a, fin b => decide (a ≤ b)
  | _, pinf => true
  | pinf, _ => false

end EF

/-- Insert into a sorted list of extended values. -/
def insertSortedEF (x : EF) : List EF → List EF
  | [] => [x]
  | y :: ys => if EF.sortLe x y then x :: y :: ys else y :: insertSortedEF x ys

/-- Insertion sort on extended values. -/
def sortEF : List EF → List EF
  | [] => []
  | x :: xs => insertSortedEF x (sortEF xs)

/-- Quantile of a column as computed by pandas Series.quantile with linear
interpolation (the numpy lerp): NaN entries are dropped, the remaining
values sorted, the virtual index q times (n minus 1) split into integer
part i and fraction g, then for g below one half the result is
x i + (x (i+1) - x i) * g and otherwise x (i+1) - (x (i+1) - x i) * (1-g).
The quantile of an empty column is NaN. -/
def quantileE (xs : List EF) (q : ℚ) : EF :=
  let v := sortEF (xs.filter (fun x => !x.isNan))
  match v with
  | [] => EF.nan
  | _ :: _ =>
    let n := v.length
    let virt : ℚ := q * ((n : ℚ) - 1)
    let i : ℕ := (Rat.floor virt).toNat
    let g : ℚ := virt - (i : ℚ)
    let a := v.getD i EF.nan
    let b := v.getD (min (i + 1) (n - 1)) EF.nan
    if g < 1/2 then EF.add a (EF.mul (EF.sub b a) (EF.fin g))
    else EF.sub b (EF.mul (EF.sub b a) (EF.fin (1 - g)))

/-- First-occurrence distinct values of a column, as pandas Series.unique
returns them (missing values included as a level). -/
def uniqList {α : Type} [DecidableEq α] (l : List α) : List α :=
  l.foldl (fun acc x => if x ∈ acc then acc else acc ++ [x]) []

/-- Equality of two cells of a categorical column under pandas semantics:
a missing value (NaN) compares unequal to everything, itself included. -/
def cellEq (a b : Option String) : Bool :=
  match a, b with
  | some x, some y => x == y
  | _, _ => false

namespace Charging

/-- Row of the charging-patterns dataframe (charging_patterns_analysis.py).
Input rows carry the parsed CSV columns the module uses: the hour and
day-name components of the parsed Charging Start Time, the two
state-of-charge percentages, and the User Type categorical (none models a
missing cell read as NaN).  The derived columns Percentage Charged and
Time of Day start at their defaults and are populated by the loader. -/
structure CRow where
  startHour : ℕ
  startDay : String
  socStart : EF
  socEnd : EF
  userType : Option String
  percentageCharged : EF := EF.nan
  timeOfDay : String := ""
deriving DecidableEq, Repr

/-- Time of Day bucket: pd.cut of the hour over bins
[-inf, 6, 12, 18, inf] with the default right-closed intervals, so the
intervals are (-inf,6], (6,12], (12,18], (18,inf). -/
def timeOfDayOf (h : ℕ) : String :=
  if h ≤ 6 then "Night"
  else if h ≤ 12 then "Morning"
  else if h ≤ 18 then "Afternoon"
  else "Evening"

/-- Percentage Charged column: end state of charge minus start state of
charge (line 39 of charging_patterns_analysis.py). -/
def pctOf (r : CRow) : EF := EF.sub r.socEnd r.socStart

/-- Dataframe after the Percentage Charged column is added. -/
def withPct (rows : List CRow) : List CRow :=
  rows.map (fun r => { r with percentageCharged := pctOf r })

/-- Dataframe after the filter keeping Percentage Charged in [0, 100]
(line 42): the pandas mask is pct at least 0 and pct at most 100, false on
NaN. -/
def keptPct (rows : List CRow) : List CRow :=
  (withPct rows).filter
    (fun r => EF.le (EF.fin 0) r.percentageCharged &&
              EF.le r.percentageCharged (EF.fin 100))

/-- The count the loader prints as removed negative percentage values
(line 46): computed on the already filtered frame. -/
def reportedNegCount (rows : List CRow) : ℕ :=
  ((keptPct rows).filter (fun r => EF.lt r.percentageCharged (EF.fin 0))).length

/-- The count the loader prints as removed percentage values above 100
(line 47): computed on the already filtered frame. -/
def reportedOverCount (rows : List CRow) : ℕ :=
  ((keptPct rows).filter (fun r => EF.lt (EF.fin 100) r.percentageCharged)).length

/-- Number of rows the percentage filter actually removed for a negative
value. -/
def actualNegRemoved (rows : List CRow) : ℕ :=
  ((withPct rows).filter (fun r => EF.lt r.percentageCharged (EF.fin 0))).length

/-- The loader load_and_prepare_data: add Percentage Charged, keep rows
with it in [0, 100], then derive Hour, Day of Week and the Time of Day
bucket from the start timestamp. -/
def load_and_prepare_data (rows : List CRow) : List CRow :=
  (keptPct rows).map (fun r => { r with timeOfDay := timeOfDayOf r.startHour })

/-- Grouping key for the day-of-week aggregation
groupby(User Type, Day of Week): none when the User Type cell is missing,
in which case groupby silently drops the row. -/
def dayKey (r : CRow) : Option (String × String) :=
  r.userType.map (fun u => (u, r.startDay))

/-- Grouping key for the time-of-day aggregation
groupby(User Type, Time of Day). -/
def timeKey (r : CRow) : Option (String × String) :=
  r.userType.map (fun u => (u, r.timeOfDay))

/-- Per-group row counts of the day-of-week aggregation in
analyze_charging_behavior (lines 71 to 73): one entry per observed group
key, counting the rows carrying that key. -/
def day_patterns_counts (df : List CRow) : List ((String × String) × ℕ) :=
  ((df.filterMap dayKey).dedup).map
    (fun k => (k, (df.filterMap dayKey).countP (fun x => decide (x = k))))

/-- Per-group row counts of the time-of-day aggregation in
analyze_charging_behavior (lines 76 to 78). -/
def time_patterns_counts (df : List CRow) : List ((String × String) × ℕ) :=
  ((df.filterMap timeKey).dedup).map
    (fun k => (k, (df.filterMap timeKey).countP (fun x => decide (x = k))))

/-- The distinct User Type levels, as the unique() call of line 111
returns them (missing values form a level of their own). -/
def unique_user_types (df : List CRow) : List (Option String) :=
  uniqList (df.map (fun r => r.userType))

/-- The statistical-test step perform_statistical_tests, modelled for the
t-test path (lines 110 to 115) and for its frame effect.  The function
first copies the dataframe (line 90), so the post-state it returns is the
input unchanged.  The two-way ANOVA and chi-square calls are external
library computations whose values no claim depends on; the scipy
ttest_ind call is the parameter ttest.  Indexing user_types at position 1
is fallible: with fewer than two distinct User Type levels it raises an
IndexError, modelled by a none result. -/
def perform_statistical_tests (df : List CRow)
    (ttest : List EF → List EF → EF × EF) :
    Option (EF × EF) × List CRow :=
  let user_types := unique_user_types df
  match user_types[0]?, user_types[1]? with
  | some u0, some u1 =>
      let g0 := (df.filter (fun r => cellEq r.userType u0)).map
        (fun r => r.percentageCharged)
      let g1 := (df.filter (fun r => cellEq r.userType u1)).map
        (fun r => r.percentageCharged)
      (some (ttest g0 g1), df)
  | _, _ => (none, df)

end Charging

namespace Ev

/-- Row of the cost-efficiency dataframe (ev_analysis.py).  Input rows
carry the CSV columns the module uses; cost_efficiency is derived by the
loader and battery_capacity_group is the column
analyze_age_efficiency_relationship later assigns in place (line 71). -/
structure EvRow where
  chargingCost : EF
  energyConsumed : EF
  batteryCapacity : EF
  vehicleAge : EF
  vehicleModel : String
  cost_efficiency : EF := EF.nan
  battery_capacity_group : Option String := none
deriving DecidableEq, Repr

/-- Dataframe after the cost_efficiency column (Charging Cost divided by
Energy Consumed, line 19) is added. -/
def withCE (rows : List EvRow) : List EvRow :=
  rows.map (fun r =>
    { r with cost_efficiency := EF.div r.chargingCost r.energyConsumed })

/-- First quartile of cost_efficiency over the full dataset (line 22). -/
def Q1_cost (rows : List EvRow) : EF :=
  quantileE ((withCE rows).map (fun r => r.cost_efficiency)) (1/4)

/-- Third quartile of cost_efficiency over the full dataset (line 23). -/
def Q3_cost (rows : List EvRow) : EF :=
  quantileE ((withCE rows).map (fun r => r.cost_efficiency)) (3/4)

/-- Lower IQR fence for cost_efficiency: Q1 - 1.5 * IQR (line 25). -/
def lower_bound_cost (rows : List EvRow) : EF :=
  EF.sub (Q1_cost rows)
    (EF.mul (EF.fin (3/2)) (EF.sub (Q3_cost rows) (Q1_cost rows)))

/-- Upper IQR fence for cost_efficiency: Q3 + 1.5 * IQR (line 26). -/
def upper_bound_cost (rows : List EvRow) : EF :=
  EF.add (Q3_cost rows)
    (EF.mul (EF.fin (3/2)) (EF.sub (Q3_cost rows) (Q1_cost rows)))

/-- First quartile of Battery Capacity over the full dataset (line 29). -/
def Q1_battery (rows : List EvRow) : EF :=
  quantileE ((withCE rows).map (fun r => r.batteryCapacity)) (1/4)

/-- Third quartile of Battery Capacity over the full dataset (line 30). -/
def Q3_battery (rows : List EvRow) : EF :=
  quantileE ((withCE rows).map (fun r => r.batteryCapacity)) (3/4)

/-- Lower IQR fence for Battery Capacity: Q1 - 1.5 * IQR (line 32). -/
def lower_bound_battery (rows : List EvRow) : EF :=
  EF.sub (Q1_battery rows)
    (EF.mul (EF.fin (3/2)) (EF.sub (Q3_battery rows) (Q1_battery rows)))

/-- Upper IQR fence for Battery Capacity: Q3 + 1.5 * IQR (line 33). -/
def upper_bound_battery (rows : List EvRow) : EF :=
  EF.add (Q3_battery rows)
    (EF.mul (EF.fin (3/2)) (EF.sub (Q3_battery rows) (Q1_battery rows)))

/-- Dataframe after the single combined outlier filter of lines 36 to 41:
both fence conditions for cost_efficiency and both for Battery Capacity in
one boolean mask over the full dataset. -/
def filteredRows (rows : List EvRow) : List EvRow :=
  (withCE rows).filter (fun r =>
    EF.le (lower_bound_cost rows) r.cost_efficiency &&
    EF.le r.cost_efficiency (upper_bound_cost rows) &&
    EF.le (lower_bound_battery rows) r.batteryCapacity &&
    EF.le r.batteryCapacity (upper_bound_battery rows))

/-- The count line 45 prints as removed upper cost-efficiency outliers:
computed on the already filtered frame. -/
def reportedCostUpperCount (rows : List EvRow) : ℕ :=
  ((filteredRows rows).filter (fun r =>
    EF.lt (upper_bound_cost rows) r.cost_efficiency)).length

/-- The count line 46 prints as removed lower cost-efficiency outliers:
computed on the already filtered frame. -/
def reportedCostLowerCount (rows : List EvRow) : ℕ :=
  ((filteredRows rows).filter (fun r =>
    EF.lt r.cost_efficiency (lower_bound_cost rows))).length

/-- Number of rows the combined filter actually removed whose
cost_efficiency lay above the upper fence. -/
def actualCostUpperRemoved (rows : List EvRow) : ℕ :=
  ((withCE rows).filter (fun r =>
    EF.lt (upper_bound_cost rows) r.cost_efficiency)).length

/-- The loader load_and_prepare_data of ev_analysis.py: derive
cost_efficiency, compute both pairs of IQR fences over the full dataset,
apply the combined filter, then drop rows with a missing value in any of
the numeric columns used downstream (line 54). -/
def load_and_prepare_data (rows : List EvRow) : List EvRow :=
  (filteredRows rows).filter (fun r =>
    !(r.vehicleAge.isNan || r.batteryCapacity.isNan ||
      r.chargingCost.isNan || r.energyConsumed.isNan ||
      r.cost_efficiency.isNan))

/-- Quartile-bin label assignment of pd.qcut with q = 4: bins are the
0, 25, 50, 75 and 100 percent quantiles of the column, intervals are
right-closed with the lowest edge included, labels Q1 to Q4; a NaN value
gets no label. -/
def qcutLabel (e0 e1 e2 e3 e4 v : EF) : Option String :=
  if v.isNan then none
  else if EF.le e0 v && EF.le v e1 then some "Q1"
  else if EF.lt e1 v && EF.le v e2 then some "Q2"
  else if EF.lt e2 v && EF.le v e3 then some "Q3"
  else if EF.lt e3 v && EF.le v e4 then some "Q4"
  else none

/-- Frame effect of analyze_age_efficiency_relationship (lines 58 to 81):
line 71 assigns the battery_capacity_group column in place on the
dataframe passed in, via pd.qcut of Battery Capacity into quartiles.  The
correlation and grouped statistics the function also returns are external
library computations no claim depends on; modelled here is the post-state
of the dataframe.  pd.qcut raises a ValueError when the computed bin edges
are not distinct, modelled by a none result. -/
def analyze_age_efficiency_relationship (df : List EvRow) :
    Option (List EvRow) :=
  let bc := df.map (fun r => r.batteryCapacity)
  let e0 := quantileE bc 0
  let e1 := quantileE bc (1/4)
  let e2 := quantileE bc (1/2)
  let e3 := quantileE bc (3/4)
  let e4 := quantileE bc 1
  let edges := [e0, e1, e2, e3, e4]
  if edges.dedup.length = edges.length then
    some (df.map (fun r =>
      { r with battery_capacity_group :=
          qcutLabel e0 e1 e2 e3 e4 r.batteryCapacity }))
  else none

/-- A row with the in-place battery_capacity_group column reset: used to
state that analyze_age_efficiency_relationship changes nothing else. -/
def stripGroup (r : EvRow) : EvRow := { r with battery_capacity_group := none }

end Ev

namespace Temperature

/-- Row of the temperature dataframe (temperature_analysis.py).  Input
rows carry the CSV columns the module uses: Temperature, Energy Consumed
and Distance Driven; energy_efficiency and the temp_range bucket are
derived by the loader. -/
structure TRow where
  temperature : EF
  energyConsumed : EF
  distance : EF
  energy_efficiency : EF := EF.nan
  temp_range : Option String := none
deriving DecidableEq, Repr

/-- Dataframe after the energy_efficiency column (Energy Consumed divided
by Distance Driven, line 23) is added. -/
def withEff (rows : List TRow) : List TRow :=
  rows.map (fun r =>
    { r with energy_efficiency := EF.div r.energyConsumed r.distance })

/-- Dataframe after the temperature filter of line 28 keeping rows with
ambient temperature at most 40 (false on NaN, so missing temperatures are
dropped here). -/
def tempKept (rows : List TRow) : List TRow :=
  (withEff rows).filter (fun r => EF.le r.temperature (EF.fin 40))

/-- Count of rows the temperature filter removed, as printed by line 30
(computed correctly from the length before and after). -/
def removed_temp (rows : List TRow) : ℕ :=
  (withEff rows).length - (tempKept rows).length

/-- First quartile of energy_efficiency over the rows surviving the
temperature filter (line 33). -/
def Q1_eff (rows : List TRow) : EF :=
  quantileE ((tempKept rows).map (fun r => r.energy_efficiency)) (1/4)

/-- Third quartile of energy_efficiency over the rows surviving the
temperature filter (line 34). -/
def Q3_eff (rows : List TRow) : EF :=
  quantileE ((tempKept rows).map (fun r => r.energy_efficiency)) (3/4)

/-- Lower IQR fence for energy_efficiency: Q1 - 1.5 * IQR (line 36). -/
def lower_bound_eff (rows : List TRow) : EF :=
  EF.sub (Q1_eff rows)
    (EF.mul (EF.fin (3/2)) (EF.sub (Q3_eff rows) (Q1_eff rows)))

/-- Upper IQR fence for energy_efficiency: Q3 + 1.5 * IQR (line 37). -/
def upper_bound_eff (rows : List TRow) : EF :=
  EF.add (Q3_eff rows)
    (EF.mul (EF.fin (3/2)) (EF.sub (Q3_eff rows) (Q1_eff rows)))

/-- Dataframe after the IQR filter of line 40 keeping energy_efficiency
within the fences. -/
def effKept (rows : List TRow) : List TRow :=
  (tempKept rows).filter (fun r =>
    EF.le (lower_bound_eff rows) r.energy_efficiency &&
    EF.le r.energy_efficiency (upper_bound_eff rows))

/-- Count of rows the IQR filter removed, as printed by line 43 (computed
correctly from the length before and after). -/
def removed_efficiency (rows : List TRow) : ℕ :=
  (tempKept rows).length - (effKept rows).length

/-- Temperature bucket of line 46: pd.cut over bins
[-inf, 0, 10, 20, 30, 40] with right-closed intervals; a value outside
every bin (NaN, an infinity, or above 40) gets no bucket. -/
def tempRangeOf (t : EF) : Option String :=
  match t with
  | EF.fin q =>
      if q ≤ 0 then some "Below 0°C"
      else if q ≤ 10 then some "0-10°C"
      else if q ≤ 20 then some "10-20°C"
      else if q ≤ 30 then some "20-30°C"
      else if q ≤ 40 then some "30-40°C"
      else none
  | _ => none

/-- The loader load_and_clean_temperature_data: derive energy_efficiency,
drop rows with temperature above 40, drop energy_efficiency outliers via
the IQR fences computed over the rows surviving at that point, then derive
the temp_range bucket. -/
def load_and_clean_temperature_data (rows : List TRow) : List TRow :=
  (effKept rows).map (fun r => { r with temp_range := tempRangeOf r.temperature })

/-- The distinct temp_range levels, as the unique() call of line 138
returns them. -/
def temp_range_levels (df : List TRow) : List (Option String) :=
  uniqList (df.map (fun r => r.temp_range))

/-- The energy_efficiency column of each temp_range group, as the groupby
of line 140 produces them (rows whose temp_range is missing are silently
dropped by groupby). -/
def effGroups (df : List TRow) : List (List EF) :=
  (uniqList (df.filterMap (fun r => r.temp_range))).map
    (fun k => ((df.filter (fun r => r.temp_range == some k)).map
      (fun r => r.energy_efficiency)))

/-- The ANOVA part of analyze_temperature_impact (lines 137 to 145): when
at least two temp_range levels exist the scipy f_oneway call, taken as the
parameter fOneway, runs on the per-level energy_efficiency groups;
otherwise the function prints a warning and yields the pair (NaN, NaN).
The correlations and descriptive statistics the function also returns are
not modelled; no claim depends on them. -/
def analyze_temperature_impact (df : List TRow)
    (fOneway : List (List EF) → EF × EF) : EF × EF :=
  if 2 ≤ (temp_range_levels df).length then fOneway (effGroups df)
  else (EF.nan, EF.nan)

end Temperature

/-! Concrete example datasets used by witnesses and counterexamples. -/

/-- Charging row builder for concrete inputs: raw columns only, derived
columns at their defaults. -/
def mkCRow (h : ℕ) (d : String) (s e : ℚ) (u : Option String) : Charging.CRow :=
  { startHour := h, startDay := d, socStart := EF.fin s, socEnd := EF.fin e,
    userType := u }

/-- Temperature row builder for concrete inputs. -/
def mkTRow (t en di : ℚ) : Temperature.TRow :=
  { temperature := EF.fin t, energyConsumed := EF.fin en, distance := EF.fin di }

/-- Cost-efficiency row builder for concrete inputs. -/
def mkEvRow (c en b a : ℚ) (m : String) : Ev.EvRow :=
  { chargingCost := EF.fin c, energyConsumed := EF.fin en,
    batteryCapacity := EF.fin b, vehicleAge := EF.fin a, vehicleModel := m }

/-- Five well-behaved sessions: no outliers, distinct battery capacities. -/
def exEvRaw : List Ev.EvRow :=
  [mkEvRow 1 1 10 1 "ModelA", mkEvRow 2 2 20 2 "ModelA", mkEvRow 3 3 30 3 "ModelB",
   mkEvRow 4 4 40 4 "ModelB", mkEvRow 5 5 50 5 "ModelC"]

/-- The cleaned dataset the cost-efficiency loader produces from exEvRaw. -/
def exEvDf : List Ev.EvRow := Ev.load_and_prepare_data exEvRaw

/-- One session starting exactly at hour 6. -/
def exHour6 : List Charging.CRow := [mkCRow 6 "Monday" 20 90 (some "Commuter")]

/-- One session with a single User Type level. -/
def exOneUserType : List Charging.CRow := [mkCRow 5 "Monday" 20 90 (some "Commuter")]

/-- A valid session and a session whose percentage charged is negative. -/
def exNegPct : List Charging.CRow :=
  [mkCRow 5 "Monday" 20 90 (some "Commuter"), mkCRow 5 "Monday" 90 10 (some "Casual")]

/-- Five sessions with equal cost efficiency except one upper outlier. -/
def exEvOutlier : List Ev.EvRow :=
  [mkEvRow 1 1 50 1 "ModelA", mkEvRow 1 1 50 1 "ModelA", mkEvRow 1 1 50 1 "ModelA",
   mkEvRow 1 1 50 1 "ModelA", mkEvRow 100 1 50 1 "ModelA"]

/-- Two sessions, one with temperature above 40 degrees. -/
def exHotTemp : List Temperature.TRow := [mkTRow 20 1 1, mkTRow 45 1 1]

/-- The example row of the specification that is retained. -/
def exPctKeep : List Charging.CRow := [mkCRow 10 "Monday" 20 90 (some "Commuter")]

/-- The example row of the specification that is dropped. -/
def exPctDrop : List Charging.CRow := [mkCRow 10 "Monday" 90 10 (some "Commuter")]

/-- Twelve sessions of which three have zero distance driven, so a quarter
of the energy-efficiency column is infinite and the upper IQR fence
becomes infinite. -/
def exZeroDist : List Temperature.TRow :=
  [mkTRow 20 1 1, mkTRow 20 2 1, mkTRow 20 3 1, mkTRow 20 4 1, mkTRow 20 5 1,
   mkTRow 20 6 1, mkTRow 20 7 1, mkTRow 20 8 1, mkTRow 20 9 1,
   mkTRow 20 5 0, mkTRow 20 5 0, mkTRow 20 5 0]

/-- Five sessions with finite, tame energy-efficiency values. -/
def exFiniteEff : List Temperature.TRow :=
  [mkTRow 20 1 1, mkTRow 20 2 1, mkTRow 20 3 1, mkTRow 20 4 1, mkTRow 20 5 1]

/-- One session whose User Type cell is missing. -/
def exMissingUser : List Charging.CRow := [mkCRow 5 "Monday" 20 90 none]

/-- Two sessions with all grouping keys present. -/
def exTwoUsers : List Charging.CRow :=
  [mkCRow 5 "Monday" 20 90 (some "Commuter"), mkCRow 7 "Tuesday" 10 50 (some "Casual")]

/-! Helper lemmas. -/

/-- A value between two finite fences under the pandas comparison is
finite. -/
lemma ef_finite_of_between {l u : ℚ} {v : EF}
    (h1 : EF.le (EF.fin l) v = true) (h2 : EF.le v (EF.fin u) = true) :
    ∃ q, v = EF.fin q := by
  cases v with
  | nan => simp [EF.le] at h1
  | ninf => simp [EF.le] at h1
  | fin q => exact ⟨q, rfl⟩
  | pinf => simp [EF.le] at h2

/-- Division by the finite value zero never yields a finite value. -/
lemma div_by_zero_not_fin (a : EF) (q : ℚ) : EF.div a (EF.fin 0) ≠ EF.fin q := by
  cases a with
  | nan => simp [EF.div]
  | ninf => simp [EF.div]
  | pinf => simp [EF.div]
  | fin x => simp [EF.div]; split_ifs <;> simp

/-- A value is finite exactly when it is some finite rational. -/
lemma ef_isFinite_iff {v : EF} : EF.isFinite v = true ↔ ∃ q, v = EF.fin q := by
  cases v <;> simp [EF.isFinite]

/-- Decomposition of membership in the cleaned charging dataset: the
record comes from an input row, has the derived columns populated and
passed the percentage filter. -/
lemma charging_load_decomp {r : Charging.CRow} {rows : List Charging.CRow}
    (h : r ∈ Charging.load_and_prepare_data rows) :
    ∃ r0 ∈ rows,
      r = { r0 with percentageCharged := Charging.pctOf r0,
                    timeOfDay := Charging.timeOfDayOf r0.startHour } ∧
      (EF.le (EF.fin 0) (Charging.pctOf r0) &&
       EF.le (Charging.pctOf r0) (EF.fin 100)) = true := by
  simp only [Charging.load_and_prepare_data, Charging.keptPct, Charging.withPct,
    List.mem_map, List.mem_filter] at h
  obtain ⟨a, ⟨⟨r0, hr0, rfl⟩, hcond⟩, rfl⟩ := h
  exact ⟨r0, hr0, rfl, hcond⟩

/-- Decomposition of membership in the cleaned cost-efficiency dataset:
the record comes from an input row, has cost_efficiency populated, and
passed both pairs of IQR fences and the missing-value drop. -/
lemma ev_load_decomp {r : Ev.EvRow} {rows : List Ev.EvRow}
    (h : r ∈ Ev.load_and_prepare_data rows) :
    ∃ r0 ∈ rows,
      r = { r0 with cost_efficiency := EF.div r0.chargingCost r0.energyConsumed } ∧
      EF.le (Ev.lower_bound_cost rows)
        (EF.div r0.chargingCost r0.energyConsumed) = true ∧
      EF.le (EF.div r0.chargingCost r0.energyConsumed)
        (Ev.upper_bound_cost rows) = true ∧
      EF.le (Ev.lower_bound_battery rows) r0.batteryCapacity = true ∧
      EF.le r0.batteryCapacity (Ev.upper_bound_battery rows) = true := by
  simp only [Ev.load_and_prepare_data, Ev.filteredRows, Ev.withCE,
    List.mem_filter, List.mem_map] at h
  obtain ⟨⟨⟨r0, hr0, rfl⟩, hcond⟩, _⟩ := h
  simp only [Bool.and_eq_true] at hcond
  exact ⟨r0, hr0, rfl, hcond.1.1.1, hcond.1.1.2, hcond.1.2, hcond.2⟩

/-- Decomposition of membership in the cleaned temperature dataset: the
record comes from an input row, has the derived columns populated, and
passed the temperature filter and the energy-efficiency IQR fences. -/
lemma temp_load_decomp {r : Temperature.TRow} {rows : List Temperature.TRow}
    (h : r ∈ Temperature.load_and_clean_temperature_data rows) :
    ∃ r0 ∈ rows,
      r = { r0 with energy_efficiency := EF.div r0.energyConsumed r0.distance,
                    temp_range := Temperature.tempRangeOf r0.temperature } ∧
      EF.le r0.temperature (EF.fin 40) = true ∧
      EF.le (Temperature.lower_bound_eff rows)
        (EF.div r0.energyConsumed r0.distance) = true ∧
      EF.le (EF.div r0.energyConsumed r0.distance)
        (Temperature.upper_bound_eff rows) = true := by
  simp only [Temperature.load_and_clean_temperature_data, Temperature.effKept,
    Temperature.tempKept, Temperature.withEff, List.mem_map, List.mem_filter] at h
  obtain ⟨a, ⟨⟨⟨r0, hr0, rfl⟩, htemp⟩, hcond⟩, rfl⟩ := h
  simp only [Bool.and_eq_true] at hcond
  exact ⟨r0, hr0, rfl, htemp, hcond.1, hcond.2⟩

/-- The per-key occurrence counts over the distinct keys of a list sum to
its length. -/
lemma sum_map_dedup_count {κ : Type} [DecidableEq κ] (l : List κ) :
    (l.dedup.map (fun a => l.count a)).sum = l.length := by
  have h1 := List.sum_toFinset (fun a => l.count a) l.nodup_dedup
  have h2 : l.dedup.toFinset = l.toFinset :=
    List.toFinset.ext_iff.mpr (fun x => List.mem_dedup)
  rw [← h1, h2]
  exact List.sum_toFinset_count_eq_length l

/-- A filterMap by an everywhere-defined partial function keeps the
length. -/
lemma length_filterMap_all_some {α β : Type} (f : α → Option β) :
    ∀ l : List α, (∀ a ∈ l, (f a).isSome) → (l.filterMap f).length = l.length
  | [], _ => rfl
  | a :: l, h => by
    obtain ⟨b, hb⟩ := Option.isSome_iff_exists.mp (h a (List.Mem.head _))
    simp [List.filterMap_cons, hb,
      length_filterMap_all_some f l (fun x hx => h x (List.Mem.tail _ hx))]

/-- Sum of the per-group counts produced by grouping a list on a partial
key: when every element has a key, the counts sum to the list length. -/
lemma counts_sum {α κ : Type} [DecidableEq κ] (key : α → Option κ) (l : List α)
    (h : ∀ a ∈ l, (key a).isSome) :
    ((((l.filterMap key).dedup).map
        (fun k => (k, (l.filterMap key).countP (fun x => decide (x = k))))).map
      Prod.snd).sum = l.length := by
  rw [List.map_map]
  have h1 : (Prod.snd ∘ fun k =>
      (k, (l.filterMap key).countP (fun x => decide (x = k)))) =
      (fun k => (l.filterMap key).count k) := rfl
  rw [h1, sum_map_dedup_count, length_filterMap_all_some key l h]

/-! Claim theorems. -/

/-- C5: every record of a cleaned dataset subject to an IQR filter has its
filtered value inside the fences Q1 - 1.5 IQR and Q3 + 1.5 IQR computed
over the rows surviving at the moment the filter ran (the temperature
module computes the energy-efficiency fences after the temperature filter,
the cost module computes the cost-efficiency fences over the full
dataset), and the energy-efficiency fences are a function of the
energy-efficiency column alone, hence independent of cost efficiency. -/
theorem C5_iqr_fences :
    (∀ rows : List Temperature.TRow,
      ∀ r ∈ Temperature.load_and_clean_temperature_data rows,
        EF.le (Temperature.lower_bound_eff rows) r.energy_efficiency = true ∧
        EF.le r.energy_efficiency (Temperature.upper_bound_eff rows) = true) ∧
    (∀ rows : List Ev.EvRow, ∀ r ∈ Ev.load_and_prepare_data rows,
        EF.le (Ev.lower_bound_cost rows) r.cost_efficiency = true ∧
        EF.le r.cost_efficiency (Ev.upper_bound_cost rows) = true) ∧
    (∀ rows rows' : List Temperature.TRow,
      (Temperature.tempKept rows).map (fun r => r.energy_efficiency) =
        (Temperature.tempKept rows').map (fun r => r.energy_efficiency) →
      Temperature.lower_bound_eff rows = Temperature.lower_bound_eff rows' ∧
      Temperature.upper_bound_eff rows = Temperature.upper_bound_eff rows') := by
  refine ⟨?_, ?_, ?_⟩
  · intro rows r hr
    obtain ⟨r0, _, rfl, _, h1, h2⟩ := temp_load_decomp hr
    exact ⟨h1, h2⟩
  · intro rows r hr
    obtain ⟨r0, _, rfl, h1, h2, _, _⟩ := ev_load_decomp hr
    exact ⟨h1, h2⟩
  · intro rows rows' h
    constructor <;>
      simp only [Temperature.lower_bound_eff, Temperature.upper_bound_eff,
        Temperature.Q1_eff, Temperature.Q3_eff, h]

/-- C5 witness at a concrete dataset and record. -/
theorem C5_witness :
    EF.le (Temperature.lower_bound_eff exFiniteEff)
      (((Temperature.load_and_clean_temperature_data exFiniteEff).getD 0
        { temperature := EF.nan, energyConsumed := EF.nan,
          distance := EF.nan }).energy_efficiency) = true ∧
    EF.le (((Temperature.load_and_clean_temperature_data exFiniteEff).getD 0
        { temperature := EF.nan, energyConsumed := EF.nan,
          distance := EF.nan }).energy_efficiency)
      (Temperature.upper_bound_eff exFiniteEff) = true :=
  C5_iqr_fences.1 exFiniteEff _ (by with_unfolding_all decide)

/-- C10: the cost-efficiency loader also filters Battery Capacity by IQR
fences; both pairs of fences are computed over the full dataset before any
row is removed (they are quantiles of the unfiltered frame by definition)
and both are enforced by the single combined filter, so every cleaned
record lies within both pairs of fences. -/
theorem C10_battery_fences :
    ∀ rows : List Ev.EvRow, ∀ r ∈ Ev.load_and_prepare_data rows,
      (EF.le (Ev.lower_bound_cost rows) r.cost_efficiency = true ∧
       EF.le r.cost_efficiency (Ev.upper_bound_cost rows) = true) ∧
      (EF.le (Ev.lower_bound_battery rows) r.batteryCapacity = true ∧
       EF.le r.batteryCapacity (Ev.upper_bound_battery rows) = true) := by
  intro rows r hr
  obtain ⟨r0, _, rfl, h1, h2, h3, h4⟩ := ev_load_decomp hr
  exact ⟨⟨h1, h2⟩, ⟨h3, h4⟩⟩

/-- C10 witness at a concrete dataset and record. -/
theorem C10_witness :
    (EF.le (Ev.lower_bound_cost exEvRaw)
      ((exEvDf.getD 0 (mkEvRow 0 1 0 0 "x")).cost_efficiency) = true ∧
     EF.le ((exEvDf.getD 0 (mkEvRow 0 1 0 0 "x")).cost_efficiency)
      (Ev.upper_bound_cost exEvRaw) = true) ∧
    (EF.le (Ev.lower_bound_battery exEvRaw)
      ((exEvDf.getD 0 (mkEvRow 0 1 0 0 "x")).batteryCapacity) = true ∧
     EF.le ((exEvDf.getD 0 (mkEvRow 0 1 0 0 "x")).batteryCapacity)
      (Ev.upper_bound_battery exEvRaw) = true) :=
  C10_battery_fences exEvRaw _ (by with_unfolding_all decide)

/-- C6: percentage charged is end state of charge minus start state of
charge, every cleaned charging record has it within [0, 100], the example
row with start 20 and end 90 is retained with value 70, and the example
row with start 90 and end 10 is dropped. -/
theorem C6_percentage_charged :
    (∀ rows : List Charging.CRow, ∀ r ∈ Charging.load_and_prepare_data rows,
      r.percentageCharged = EF.sub r.socEnd r.socStart ∧
      EF.le (EF.fin 0) r.percentageCharged = true ∧
      EF.le r.percentageCharged (EF.fin 100) = true) ∧
    (Charging.load_and_prepare_data exPctKeep).map
      (fun r => r.percentageCharged) = [EF.fin 70] ∧
    Charging.load_and_prepare_data exPctDrop = [] := by
  refine ⟨?_, by with_unfolding_all decide, by with_unfolding_all decide⟩
  intro rows r hr
  obtain ⟨r0, _, rfl, hcond⟩ := charging_load_decomp hr
  rw [Bool.and_eq_true] at hcond
  exact ⟨rfl, hcond.1, hcond.2⟩

/-- C6 witness at a concrete dataset and record. -/
theorem C6_witness :
    ((Charging.load_and_prepare_data exPctKeep).getD 0
        (mkCRow 0 "x" 0 0 none)).percentageCharged =
      EF.sub ((Charging.load_and_prepare_data exPctKeep).getD 0
        (mkCRow 0 "x" 0 0 none)).socEnd
        ((Charging.load_and_prepare_data exPctKeep).getD 0
        (mkCRow 0 "x" 0 0 none)).socStart ∧
    EF.le (EF.fin 0) (((Charging.load_and_prepare_data exPctKeep).getD 0
        (mkCRow 0 "x" 0 0 none)).percentageCharged) = true ∧
    EF.le (((Charging.load_and_prepare_data exPctKeep).getD 0
        (mkCRow 0 "x" 0 0 none)).percentageCharged) (EF.fin 100) = true :=
  C6_percentage_charged.1 exPctKeep _ (by with_unfolding_all decide)

/-- C9: each loader is a deterministic pure function of its parsed input:
equal inputs give equal cleaned datasets.  The embedding is pure by
construction; the source modules read one CSV and use no randomness or
global state. -/
theorem C9_deterministic :
    (∀ rows rows' : List Charging.CRow, rows = rows' →
      Charging.load_and_prepare_data rows = Charging.load_and_prepare_data rows') ∧
    (∀ rows rows' : List Temperature.TRow, rows = rows' →
      Temperature.load_and_clean_temperature_data rows =
        Temperature.load_and_clean_temperature_data rows') ∧
    (∀ rows rows' : List Ev.EvRow, rows = rows' →
      Ev.load_and_prepare_data rows = Ev.load_and_prepare_data rows') :=
  ⟨fun _ _ h => by rw [h], fun _ _ h => by rw [h], fun _ _ h => by rw [h]⟩

/-- C9 witness at a concrete dataset. -/
theorem C9_witness :
    Charging.load_and_prepare_data exTwoUsers =
      Charging.load_and_prepare_data exTwoUsers :=
  C9_deterministic.1 exTwoUsers exTwoUsers rfl

/-- C2 counterexample: a record starting exactly at hour 6 is bucketed
Night by the loader (the pd.cut bins are right-closed), not Morning as the
claim states. -/
theorem C2_counterexample :
    (Charging.load_and_prepare_data exHour6).map (fun r => r.timeOfDay) =
      ["Night"] ∧ ("Night" : String) ≠ "Morning" := by
  constructor
  · with_unfolding_all decide
  · decide

/-- C2 amended: the bucket boundaries are right-closed: Night on hours up
to and including 6, Morning on hours in (6, 12], Afternoon on (12, 18],
Evening above 18; every cleaned record carries the bucket of its start
hour. -/
theorem C2_time_of_day_buckets :
    (∀ rows : List Charging.CRow, ∀ r ∈ Charging.load_and_prepare_data rows,
      r.timeOfDay = Charging.timeOfDayOf r.startHour) ∧
    (∀ h : ℕ,
      (Charging.timeOfDayOf h = "Night" ↔ h ≤ 6) ∧
      (Charging.timeOfDayOf h = "Morning" ↔ 6 < h ∧ h ≤ 12) ∧
      (Charging.timeOfDayOf h = "Afternoon" ↔ 12 < h ∧ h ≤ 18) ∧
      (Charging.timeOfDayOf h = "Evening" ↔ 18 < h)) := by
  constructor
  · intro rows r hr
    obtain ⟨r0, _, rfl, _⟩ := charging_load_decomp hr
    rfl
  · intro h
    unfold Charging.timeOfDayOf
    split_ifs with h1 h2 h3 <;> refine ⟨?_, ?_, ?_, ?_⟩ <;> simp <;> omega

/-- C2 witness: the amended bucket characterisation evaluated at hour 6. -/
theorem C2_witness :
    (Charging.timeOfDayOf 6 = "Night" ↔ 6 ≤ 6) ∧
    (Charging.timeOfDayOf 6 = "Morning" ↔ 6 < 6 ∧ 6 ≤ 12) ∧
    (Charging.timeOfDayOf 6 = "Afternoon" ↔ 12 < 6 ∧ 6 ≤ 18) ∧
    (Charging.timeOfDayOf 6 = "Evening" ↔ 18 < 6) :=
  C2_time_of_day_buckets.2 6

/-- C3 counterexample: on a cleaned dataset with a single User Type level
the charging-module t-test does not degrade to NaN: the unguarded indexing
of the second user type fails (an IndexError, modelled by none), whatever
the library t-test would return. -/
theorem C3_counterexample :
    (Charging.perform_statistical_tests
      (Charging.load_and_prepare_data exOneUserType)
      (fun _ _ => (EF.nan, EF.nan))).1 = none := by
  with_unfolding_all decide

/-- C3 amended: the one-way ANOVA of the temperature module degrades to a
(NaN, NaN) result with a warning when fewer than 2 temp_range levels
exist, for any library ANOVA implementation; the charging-module t-test,
however, raises an IndexError (modelled by none) when fewer than 2 User
Type levels exist, for any library t-test implementation. -/
theorem C3_insufficient_groups :
    (∀ (df : List Temperature.TRow) (fOneway : List (List EF) → EF × EF),
      (Temperature.temp_range_levels df).length < 2 →
      Temperature.analyze_temperature_impact df fOneway = (EF.nan, EF.nan)) ∧
    (∀ (df : List Charging.CRow) (ttest : List EF → List EF → EF × EF),
      (Charging.unique_user_types df).length < 2 →
      (Charging.perform_statistical_tests df ttest).1 = none) := by
  constructor
  · intro df fOneway h
    have hn : ¬ 2 ≤ (Temperature.temp_range_levels df).length := by omega
    simp [Temperature.analyze_temperature_impact, hn]
  · intro df ttest h
    have h1 : (Charging.unique_user_types df)[1]? = none :=
      List.getElem?_eq_none (by omega)
    cases h0 : (Charging.unique_user_types df)[0]? <;>
      simp [Charging.perform_statistical_tests, h0, h1]

/-- C3 witness: the ANOVA branch of the amended statement applied to the
empty dataset and an arbitrary library implementation. -/
theorem C3_witness :
    Temperature.analyze_temperature_impact ([] : List Temperature.TRow)
      (fun _ => (EF.fin 0, EF.fin 0)) = (EF.nan, EF.nan) :=
  C3_insufficient_groups.1 [] (fun _ => (EF.fin 0, EF.fin 0)) (by decide)

/-- C4: the removal counts the charging and cost-efficiency loaders print
are computed on the already filtered frame, so they always report zero
even when rows were removed; on the example inputs one row is actually
removed (a negative percentage charged, an upper cost-efficiency outlier)
while the printed count is zero.  The temperature loader computes its
count correctly from the lengths before and after, shown on an input with
one row above 40 degrees. -/
theorem C4_reported_counts :
    (Charging.reportedNegCount exNegPct = 0 ∧
     Charging.actualNegRemoved exNegPct = 1) ∧
    (Ev.reportedCostUpperCount exEvOutlier = 0 ∧
     Ev.actualCostUpperRemoved exEvOutlier = 1) ∧
    (Temperature.removed_temp exHotTemp = 1) := by
  refine ⟨⟨?_, ?_⟩, ⟨?_, ?_⟩, ?_⟩ <;> with_unfolding_all decide

/-- C8 counterexample: a cleaned dataset with one record whose User Type
cell is missing: the groupby aggregation silently drops it, so the
per-group counts sum to 0 while the cleaned dataset has 1 record. -/
theorem C8_counterexample :
    ((Charging.day_patterns_counts
        (Charging.load_and_prepare_data exMissingUser)).map Prod.snd).sum ≠
      (Charging.load_and_prepare_data exMissingUser).length := by
  with_unfolding_all decide

/-- C8 amended: when every cleaned record has a User Type value, the
per-group counts of both the day-of-week and time-of-day aggregations sum
to the total cleaned record count; records with a missing grouping key are
silently dropped by groupby. -/
theorem C8_group_counts :
    ∀ rows : List Charging.CRow,
      (∀ r ∈ Charging.load_and_prepare_data rows, r.userType ≠ none) →
      ((Charging.day_patterns_counts (Charging.load_and_prepare_data rows)).map
          Prod.snd).sum = (Charging.load_and_prepare_data rows).length ∧
      ((Charging.time_patterns_counts (Charging.load_and_prepare_data rows)).map
          Prod.snd).sum = (Charging.load_and_prepare_data rows).length := by
  intro rows h
  constructor
  · have hs := counts_sum Charging.dayKey (Charging.load_and_prepare_data rows)
      (fun r hr => by
        have := Option.isSome_iff_ne_none.mpr (h r hr)
        simpa [Charging.dayKey, Option.isSome_map'] using this)
    simpa only [Charging.day_patterns_counts] using hs
  · have hs := counts_sum Charging.timeKey (Charging.load_and_prepare_data rows)
      (fun r hr => by
        have := Option.isSome_iff_ne_none.mpr (h r hr)
        simpa [Charging.timeKey, Option.isSome_map'] using this)
    simpa only [Charging.time_patterns_counts] using hs

/-- C8 witness at a concrete two-user dataset. -/
theorem C8_witness :
    ((Charging.day_patterns_counts
        (Charging.load_and_prepare_data exTwoUsers)).map Prod.snd).sum =
      (Charging.load_and_prepare_data exTwoUsers).length ∧
    ((Charging.time_patterns_counts
        (Charging.load_and_prepare_data exTwoUsers)).map Prod.snd).sum =
      (Charging.load_and_prepare_data exTwoUsers).length :=
  C8_group_counts exTwoUsers (by with_unfolding_all decide)

/-- C7 counterexample: in a dataset where a quarter of the rows have zero
distance driven, the infinite energy-efficiency values push the upper IQR
fence to infinity, the filter keeps them, and the cleaned dataset contains
records with a zero denominator. -/
theorem C7_counterexample :
    (Temperature.load_and_clean_temperature_data exZeroDist).any
      (fun r => r.distance == EF.fin 0) = true := by
  with_unfolding_all decide

/-- C7 amended: whenever the computed IQR fences are finite (in particular
when the infinite ratios do not reach the quartile interpolation windows),
a division by zero in a derived ratio yields an infinite or NaN value that
the fence comparison rejects, so no cleaned record has a zero denominator;
with enough zero-denominator rows the fences become infinite and such
records survive. -/
theorem C7_zero_denominator :
    (∀ rows : List Temperature.TRow,
      EF.isFinite (Temperature.lower_bound_eff rows) = true →
      EF.isFinite (Temperature.upper_bound_eff rows) = true →
      ∀ r ∈ Temperature.load_and_clean_temperature_data rows,
        r.distance ≠ EF.fin 0) ∧
    (∀ rows : List Ev.EvRow,
      EF.isFinite (Ev.lower_bound_cost rows) = true →
      EF.isFinite (Ev.upper_bound_cost rows) = true →
      ∀ r ∈ Ev.load_and_prepare_data rows,
        r.energyConsumed ≠ EF.fin 0) := by
  constructor
  · intro rows hfl hfu r hr heq
    obtain ⟨r0, _, rfl, _, h1, h2⟩ := temp_load_decomp hr
    obtain ⟨l, hl⟩ := ef_isFinite_iff.mp hfl
    obtain ⟨u, hu⟩ := ef_isFinite_iff.mp hfu
    rw [hl] at h1
    rw [hu] at h2
    obtain ⟨q, hq⟩ := ef_finite_of_between h1 h2
    have hv : EF.div r0.energyConsumed r0.distance = EF.fin q := hq
    rw [show r0.distance = EF.fin 0 from heq] at hv
    exact div_by_zero_not_fin _ _ hv
  · intro rows hfl hfu r hr heq
    obtain ⟨r0, _, rfl, h1, h2, _, _⟩ := ev_load_decomp hr
    obtain ⟨l, hl⟩ := ef_isFinite_iff.mp hfl
    obtain ⟨u, hu⟩ := ef_isFinite_iff.mp hfu
    rw [hl] at h1
    rw [hu] at h2
    obtain ⟨q, hq⟩ := ef_finite_of_between h1 h2
    have hv : EF.div r0.chargingCost r0.energyConsumed = EF.fin q := hq
    rw [show r0.energyConsumed = EF.fin 0 from heq] at hv
    exact div_by_zero_not_fin _ _ hv

/-- C7 witness at a concrete dataset with finite fences. -/
theorem C7_witness :
    ((Temperature.load_and_clean_temperature_data exFiniteEff).getD 0
      { temperature := EF.nan, energyConsumed := EF.nan,
        distance := EF.nan }).distance ≠ EF.fin 0 :=
  C7_zero_denominator.1 exFiniteEff (by with_unfolding_all decide)
    (by with_unfolding_all decide) _ (by with_unfolding_all decide)

/-- C1 counterexample: applying analyze_age_efficiency_relationship to a
cleaned dataset succeeds and hands back a dataset different from the one
passed in: the battery_capacity_group column was added in place. -/
theorem C1_counterexample :
    Ev.analyze_age_efficiency_relationship exEvDf ≠ some exEvDf ∧
    (Ev.analyze_age_efficiency_relationship exEvDf).isSome = true := by
  constructor <;> with_unfolding_all decide

/-- C1 amended: the charging-module statistical tests leave the dataset
unchanged (they operate on an explicit copy), and
analyze_age_efficiency_relationship preserves the row set and every other
column, mutating the dataset only by assigning the battery_capacity_group
column in place. -/
theorem C1_frame_effects :
    (∀ (df : List Charging.CRow) (ttest : List EF → List EF → EF × EF),
      (Charging.perform_statistical_tests df ttest).2 = df) ∧
    (∀ (df df' : List Ev.EvRow),
      Ev.analyze_age_efficiency_relationship df = some df' →
      df'.map Ev.stripGroup = df.map Ev.stripGroup) := by
  constructor
  · intro df ttest
    cases h0 : (Charging.unique_user_types df)[0]? <;>
      cases h1 : (Charging.unique_user_types df)[1]? <;>
        simp [Charging.perform_statistical_tests, h0, h1]
  · intro df df' h
    simp only [Ev.analyze_age_efficiency_relationship] at h
    split_ifs at h
    obtain rfl := Option.some.inj h
    rw [List.map_map]
    rfl

/-- C1 witness: the mutated dataset of the counterexample differs from the
input only in the battery_capacity_group column. -/
theorem C1_witness :
    ((Ev.analyze_age_efficiency_relationship exEvDf).getD []).map Ev.stripGroup
      = exEvDf.map Ev.stripGroup :=
  C1_frame_effects.2 exEvDf ((Ev.analyze_age_efficiency_relationship exEvDf).getD [])
    (by with_unfolding_all decide)
